import Mathlib

/-!
Verification development for the web-parser service.

Shallow embedding of the core pipeline:
- browser page loading with retry and page-lifecycle handling
  (app/browser.py, BrowserManager.get_page_content);
- content reduction (app/preparser.py extract_main_content and
  clean_html_for_llm, app/extractor.py LLMExtractor.extract_data);
- the targeted keyword-window extraction strategy.  The function
  extract_targeted_content is imported by app/extractor.py from
  app.preparser but its definition is absent from the source tree;
  it is modelled from the specification (spec section 4.2, Strategy C).

Machine strings are Lean Strings; character offsets are Nat.  Python
exceptions are explicit error values (Except / tagged outcomes).
-/

/-- Python exception classes that BrowserManager.get_page_content raises or
catches (browser.py lines 88-117 and 126): TimeoutError, ValueError,
RuntimeError.  The interpolated f-string details (url, timings, lengths)
are carried as plain message strings. -/
inductive PyError where
  | timeoutError (msg : String)
  | valueError (msg : String)
  | runtimeError (msg : String)
deriving DecidableEq, Repr

/-- What the browser backend does on one attempt of the load loop
(browser.py lines 64-149).  Each constructor names the first failing step
of the attempt body, or `content` when extraction yields data. -/
inductive AttemptSpec where
  | pageOpenFail (msg : String)
  | navTimeout
  | navError (msg : String)
  | extractError (msg : String)
  | unexpected (msg : String)
  | cancelled
  | content (html text : String)
deriving DecidableEq, Repr

/-- Outcome of one attempt body as seen by the except clauses of
browser.py lines 126-141: a successful return, an exception of one of the
three classified classes, an unexpected exception, or cancellation
(a BaseException that no except clause catches). -/
inductive AttemptOutcome where
  | success (html text : String)
  | classified (e : PyError)
  | unexpectedExc (msg : String)
  | cancelled
deriving DecidableEq, Repr

/-- Runs the try body of one attempt (browser.py lines 66-124).
Navigation timeout becomes TimeoutError (line 89), any other navigation
failure becomes ValueError (line 94), a content-extraction failure becomes
RuntimeError (line 110), and extracted HTML that is falsy or shorter than
100 characters becomes ValueError (lines 113-114).  Short text only logs a
warning (lines 116-117) and does not affect the outcome.  A failure of
new_page itself, or any other non-classified exception, is an unexpected
exception. -/
def attemptOutcome : AttemptSpec → AttemptOutcome
  | .pageOpenFail msg => .unexpectedExc msg
  | .navTimeout => .classified (.timeoutError "Page load timed out")
  | .navError msg => .classified (.valueError msg)
  | .extractError msg => .classified (.runtimeError msg)
  | .unexpected msg => .unexpectedExc msg
  | .cancelled => .cancelled
  | .content html text =>
    if html = "" ∨ html.length < 100 then
      .classified (.valueError "Page appears to be empty or incomplete")
    else .success html text

/-- How get_page_content exits towards its caller: a raised Python error,
or propagated cancellation. -/
inductive LoadExit where
  | err (e : PyError)
  | cancelled
deriving DecidableEq, Repr

/-- The fixed attempt budget of browser.py line 61. -/
def max_attempts : Nat := 2

/-- The retry loop of browser.py lines 64-155, over the list of remaining
attempt indices.  A classified error is recorded as last_error and the
loop continues (lines 126-133); an unexpected exception is wrapped into a
RuntimeError and, on the final attempt, raised at once (lines 135-141);
cancellation propagates.  After the loop the last observed error is raised
(lines 151-155). -/
def loadLoop (b : Nat → AttemptSpec) : List Nat → Option PyError → Except LoadExit (String × String)
  | [], some e => .error (.err e)
  | [], none => .error (.err (.runtimeError "Failed to load page after 2 attempts"))
  | a :: rest, _last =>
    match attemptOutcome (b a) with
    | .success h t => .ok (h, t)
    | .classified e => loadLoop b rest (some e)
    | .unexpectedExc m =>
      let w := PyError.runtimeError ("Unexpected error loading page: " ++ m)
      if rest.isEmpty then .error (.err w) else loadLoop b rest (some w)
    | .cancelled => .error .cancelled

/-- BrowserManager.get_page_content (browser.py lines 43-155) over an
abstract backend b giving the behaviour of each attempt.  Mirrors
`for attempt in range(1, max_attempts + 1)`. -/
def get_page_content (b : Nat → AttemptSpec) : Except LoadExit (String × String) :=
  loadLoop b (List.range' 1 max_attempts) none

/-- Page-lifecycle events observable from a fake browser backend. -/
inductive PageEvent where
  | opened
  | navigated
  | extracted
  | validated
  | errorHit
  | closed
deriving DecidableEq, Repr

/-- Whether new_page() succeeded in this attempt, i.e. whether the local
variable page is non-None when the finally block (browser.py line 143)
runs. -/
def opensPage : AttemptSpec → Bool
  | .pageOpenFail _ => false
  | .navTimeout => true
  | .navError _ => true
  | .extractError _ => true
  | .unexpected _ => true
  | .cancelled => true
  | .content _ _ => true

/-- Events of the try body of one attempt (browser.py lines 66-124) in
order; close never appears in the body. -/
def attemptBody : AttemptSpec → List PageEvent
  | .pageOpenFail _ => [.errorHit]
  | .navTimeout => [.opened, .errorHit]
  | .navError _ => [.opened, .errorHit]
  | .extractError _ => [.opened, .navigated, .errorHit]
  | .unexpected _ => [.opened, .errorHit]
  | .cancelled => [.opened, .errorHit]
  | .content html _ =>
    if html = "" ∨ html.length < 100 then [.opened, .navigated, .extracted, .errorHit]
    else [.opened, .navigated, .extracted, .validated]

/-- Full event trace of one attempt: the try body followed by the finally
block (browser.py lines 143-149), which closes the page exactly when it
was opened, on every exit path including unexpected exceptions and
cancellation. -/
def attemptTrace (s : AttemptSpec) : List PageEvent :=
  attemptBody s ++ (if opensPage s then [.closed] else [])

/-- Availability and behaviour of the optional parsing backends of
preparser.py lines 7-23, as seen by extract_main_content.  Each field is
none when the library failed to import.  trafilatura maps html to its
extraction result, where none covers both a falsy result and a raised
exception (lines 41-48, both fall through).  selectolax and bs4 map html
to the text of the main-content or body element, none when no body element
exists (lines 60-87, falling through to line 90). -/
structure Caps where
  trafilatura : Option (String → Option String)
  selectolax : Option (String → Option String)
  bs4 : Option (String → Option String)

/-- The configuration with no parsing capability at all. -/
def capsNone : Caps := ⟨none, none, none⟩

/-- Characters of a list with leading and trailing whitespace removed. -/
def trimChars (cs : List Char) : List Char :=
  ((cs.dropWhile Char.isWhitespace).reverse.dropWhile Char.isWhitespace).reverse

/-- Python str.strip(): the string with leading and trailing whitespace
removed. -/
def pyStrip (s : String) : String := String.mk (trimChars s.data)

/-- extract_main_content (preparser.py lines 26-90).  Tries trafilatura
first and returns its stripped result when truthy; otherwise uses
selectolax, else BeautifulSoup, to obtain main-content or body text;
when the chosen parser finds no element, or when no parser is available
at all, returns the stripped original text (lines 56-57 and 89-90). -/
def extract_main_content (caps : Caps) (html_content text_content : String) : String :=
  let viaTraf : Option String :=
    match caps.trafilatura with
    | some f =>
      match f html_content with
      | some extracted => if extracted = "" then none else some (pyStrip extracted)
      | none => none
    | none => none
  match viaTraf with
  | some s => s
  | none =>
    match caps.selectolax with
    | some f =>
      match f html_content with
      | some s => s
      | none => pyStrip text_content
    | none =>
      match caps.bs4 with
      | some f =>
        match f html_content with
        | some s => s
        | none => pyStrip text_content
      | none => pyStrip text_content

/-- Modelled from the spec: a labeled match interval of Strategy C
(spec section 3, Match), in offsets of the normalized text. -/
structure Span where
  start : Nat
  stop : Nat
  label : String
deriving DecidableEq, Repr

/-- Modelled from the spec: a context-expanded, mergeable region of
Strategy C (spec section 3, Region). -/
structure Region where
  start : Nat
  stop : Nat
  labels : List String
deriving DecidableEq, Repr

/-- Modelled from the spec: whitespace normalization of Strategy C,
collapsing runs of whitespace to single spaces. -/
def collapseWs : List Char → List Char
  | [] => []
  | [c] => [if c.isWhitespace then ' ' else c]
  | a :: b :: rest =>
    if a.isWhitespace && b.isWhitespace then collapseWs (b :: rest)
    else (if a.isWhitespace then ' ' else a) :: collapseWs (b :: rest)

/-- Character that may extend a word: letter or digit. -/
def isAlnum (c : Char) : Bool := c.isAlpha || c.isDigit

/-- Case-insensitive character equality (ASCII). -/
def lowerEq (a b : Char) : Bool := a.toLower = b.toLower

/-- Case-insensitive leading-match test: does the text begin with the pattern? -/
def startsWithCI : List Char → List Char → Bool
  | [], _ => true
  | _ :: _, [] => false
  | p :: ps, c :: cs => lowerEq p c && startsWithCI ps cs

/-- Length of the leading run of decimal digits. -/
def digitsLen : List Char → Nat
  | [] => 0
  | c :: cs => if c.isDigit then digitsLen cs + 1 else 0

/-- Length of the leading run of letters. -/
def lettersLen : List Char → Nat
  | [] => 0
  | c :: cs => if c.isAlpha then lettersLen cs + 1 else 0

/-- Length of an optional single space at the head. -/
def spaceLen : List Char → Nat
  | ' ' :: _ => 1
  | _ => 0

/-- Length of an optional single comma at the head. -/
def commaLen : List Char → Nat
  | ',' :: _ => 1
  | _ => 0

/-- Length consumed by zero or more comma-separated digit groups. -/
def commaGroupsLen : Nat → List Char → Nat
  | 0, _ => 0
  | fuel + 1, cs =>
    match cs with
    | ',' :: rest =>
      let d := digitsLen rest
      if d = 0 then 0 else 1 + d + commaGroupsLen fuel (rest.drop d)
    | _ => 0

/-- Length of an optional two-decimal suffix. -/
def decimalLen : List Char → Nat
  | '.' :: a :: b :: _ => if a.isDigit && b.isDigit then 3 else 0
  | _ => 0

/-- Length of an optional am/pm marker. -/
def ampmLen (cs : List Char) : Nat :=
  if startsWithCI ['a', 'm'] cs || startsWithCI ['p', 'm'] cs then 2 else 0

/-- Length of the first alternative that leads the text, compared
case-insensitively; zero when none does. -/
def wordAltLen (alts : List (List Char)) (cs : List Char) : Nat :=
  match alts with
  | [] => 0
  | a :: rest => if startsWithCI a cs then a.length else wordAltLen rest cs

/-- Modelled from the spec: token class (a), a 3-letter all-uppercase code
taken as a transportation-hub identifier. -/
def matchCode3 : List Char → Option (Nat × String)
  | a :: b :: c :: _ =>
    if a.isUpper && b.isUpper && c.isUpper then
      some (3, "AIRPORT:" ++ String.mk [a, b, c])
    else none
  | _ => none

/-- Modelled from the spec: token class (b), a numeric or currency token:
optional leading currency symbol, digit groups optionally comma-separated,
optional 2-decimal suffix. -/
def matchNumber (cs : List Char) : Option (Nat × String) :=
  let (curr, rest1) :=
    match cs with
    | '$' :: rest => (1, rest)
    | _ => (0, cs)
  let d := digitsLen rest1
  if d = 0 then none
  else
    let g := commaGroupsLen rest1.length (rest1.drop d)
    let dec := decimalLen (rest1.drop (d + g))
    some (curr + d + g + dec, "PRICE")

/-- Modelled from the spec: token class (c), a clock time H:MM or HH:MM
with optional am/pm marker. -/
def matchTime (cs : List Char) : Option (Nat × String) :=
  let d1 := digitsLen cs
  if d1 = 0 || d1 > 2 then none
  else
    match cs.drop d1 with
    | ':' :: rest =>
      let d2 := digitsLen rest
      if d2 = 2 then some (d1 + 3 + ampmLen (rest.drop 2), "TIME") else none
    | _ => none

/-- Modelled from the spec: token class (d), a short alphanumeric code of
1-2 letters followed by 1-4 digits. -/
def matchFlightCode (cs : List Char) : Option (Nat × String) :=
  let l := lettersLen cs
  if l = 0 || l > 2 then none
  else
    let d := digitsLen (cs.drop l)
    if d = 0 || d > 4 then none
    else some (l + d, "FLIGHT:" ++ String.mk (cs.take (l + d)))

/-- Hour-word alternatives of the duration phrase, longest first. -/
def hourAlts : List (List Char) := [['h', 'o', 'u', 'r', 's'], ['h', 'o', 'u', 'r'], ['h']]

/-- Minute-word alternatives of the duration phrase, longest first. -/
def minuteAlts : List (List Char) :=
  [['m', 'i', 'n', 'u', 't', 'e', 's'], ['m', 'i', 'n', 'u', 't', 'e'],
   ['m', 'i', 'n', 's'], ['m', 'i', 'n'], ['m']]

/-- Modelled from the spec: token class (e), a duration phrase of the form
number h[our[s]] number m[inute[s]], case-insensitive. -/
def matchDuration (cs : List Char) : Option (Nat × String) :=
  let d1 := digitsLen cs
  if d1 = 0 then none
  else
    let p1 := d1 + spaceLen (cs.drop d1)
    let hw := wordAltLen hourAlts (cs.drop p1)
    if hw = 0 then none
    else
      let p2 := p1 + hw
      let p3 := p2 + spaceLen (cs.drop p2)
      let d2 := digitsLen (cs.drop p3)
      if d2 = 0 then none
      else
        let p4 := p3 + d2
        let p5 := p4 + spaceLen (cs.drop p4)
        let mw := wordAltLen minuteAlts (cs.drop p5)
        if mw = 0 then none else some (p5 + mw, "DURATION")

/-- Month-name abbreviations of the calendar-date phrase. -/
def monthAlts : List (List Char) :=
  [['j', 'a', 'n'], ['f', 'e', 'b'], ['m', 'a', 'r'], ['a', 'p', 'r'],
   ['m', 'a', 'y'], ['j', 'u', 'n'], ['j', 'u', 'l'], ['a', 'u', 'g'],
   ['s', 'e', 'p'], ['o', 'c', 't'], ['n', 'o', 'v'], ['d', 'e', 'c']]

/-- Modelled from the spec: token class (f), a calendar-date phrase of
month-name abbreviation, day and 4-digit year. -/
def matchDate (cs : List Char) : Option (Nat × String) :=
  let m := wordAltLen monthAlts cs
  if m = 0 then none
  else
    let p1 := m + spaceLen (cs.drop m)
    let d := digitsLen (cs.drop p1)
    if d = 0 || d > 2 then none
    else
      let p2 := p1 + d
      let p3 := p2 + commaLen (cs.drop p2)
      let p4 := p3 + spaceLen (cs.drop p3)
      let y := digitsLen (cs.drop p4)
      if y = 4 then some (p4 + 4, "DATE") else none

/-- Modelled from the spec: the configured domain keyword vocabulary of
token class (g), longest-first so longer words win over their leading
parts. -/
def keywordList : List String :=
  ["flights", "flight", "airlines", "airline", "airport", "departure",
   "departs", "depart", "arrival", "arrives", "arrive", "price", "fares",
   "fare", "total", "nonstop", "stops", "stop", "layover", "economy",
   "business", "cabin"]

/-- Modelled from the spec: token class (g), case-insensitive whole-word
match against the configured keyword list. -/
def matchKeyword (cs : List Char) : Option (Nat × String) :=
  match keywordList.find? (fun kw => startsWithCI kw.data cs) with
  | some kw => some (kw.length, "KEYWORD:" ++ kw)
  | none => none

/-- Word boundary: holds before the first character, after the last, and
at any non-alphanumeric neighbour. -/
def boundaryOk : Option Char → Bool
  | none => true
  | some c => !(isAlnum c)

/-- Modelled from the spec: one pattern scanned independently over the
whole normalized text, left to right and non-overlapping: a match with
word boundaries on both sides is recorded and scanning resumes after it,
otherwise scanning advances one character. -/
def scanPattern (matcher : List Char → Option (Nat × String)) :
    Nat → Option Char → Nat → List Char → List Span
  | 0, _, _, _ => []
  | fuel + 1, prev, pos, cs =>
    match cs with
    | [] => []
    | c :: rest =>
      match matcher cs with
      | some (len, label) =>
        if boundaryOk prev && decide (0 < len) && boundaryOk ((cs.drop len).head?) then
          { start := pos, stop := pos + len, label := label } ::
            scanPattern matcher fuel (cs.get? (len - 1)) (pos + len) (cs.drop len)
        else scanPattern matcher fuel (some c) (pos + 1) rest
      | none => scanPattern matcher fuel (some c) (pos + 1) rest

/-- Runs one pattern over a whole text from offset zero. -/
def scanWith (matcher : List Char → Option (Nat × String)) (cs : List Char) : List Span :=
  scanPattern matcher cs.length none 0 cs

/-- Modelled from the spec: all matches of the seven token classes of
Strategy C, one independent scan per class, concatenated in class order
(a) through (g). -/
def scanMatches (cs : List Char) : List Span :=
  scanWith matchCode3 cs ++ scanWith matchNumber cs ++ scanWith matchTime cs ++
    scanWith matchFlightCode cs ++ scanWith matchDuration cs ++
    scanWith matchDate cs ++ scanWith matchKeyword cs

/-- Modelled from the spec: symmetric expansion of a match by the context
window, clamped to text bounds (Nat subtraction clamps at zero). -/
def expandSpan (w n : Nat) (m : Span) : Region :=
  { start := m.start - w, stop := min (m.stop + w) n, labels := [m.label] }

/-- Inserts a region into a list sorted by start offset. -/
def insertRegion (r : Region) : List Region → List Region
  | [] => [r]
  | a :: rest => if r.start ≤ a.start then r :: a :: rest else a :: insertRegion r rest

/-- Modelled from the spec: sort expanded intervals by start offset
(stable insertion sort). -/
def sortRegions : List Region → List Region
  | [] => []
  | r :: rest => insertRegion r (sortRegions rest)

/-- Modelled from the spec: merge adjacent regions that overlap or touch,
accumulating the union of labels for the merged span.  Fuel-recursive;
each step shortens the list, so the list length is enough fuel. -/
def mergeRegionsFuel : Nat → List Region → List Region
  | 0, rs => rs
  | _ + 1, [] => []
  | _ + 1, [r] => [r]
  | fuel + 1, a :: b :: rest =>
    if b.start ≤ a.stop then
      mergeRegionsFuel fuel ({ start := a.start, stop := max a.stop b.stop,
                               labels := a.labels ++ b.labels } :: rest)
    else a :: mergeRegionsFuel fuel (b :: rest)

/-- Modelled from the spec: region merging over a whole sorted list. -/
def mergeRegions (rs : List Region) : List Region := mergeRegionsFuel rs.length rs

/-- Removes duplicate labels, keeping one occurrence of each. -/
def dedupStr : List String → List String
  | [] => []
  | a :: rest => if a ∈ rest then dedupStr rest else a :: dedupStr rest

/-- Lexicographic comparison of character lists by code point. -/
def strLeChars : List Char → List Char → Bool
  | [], _ => true
  | _ :: _, [] => false
  | a :: as, b :: bs => if a = b then strLeChars as bs else decide (a < b)

/-- Lexicographic code-point comparison of strings, as Python sorts
them. -/
def strLe (a b : String) : Bool := strLeChars a.data b.data

/-- Inserts a string into a list sorted lexicographically. -/
def insertStr (s : String) : List String → List String
  | [] => [s]
  | a :: rest => if strLe s a then s :: a :: rest else a :: insertStr s rest

/-- Lexicographic insertion sort on strings. -/
def sortStrings : List String → List String
  | [] => []
  | s :: rest => insertStr s (sortStrings rest)

/-- The characters of the half-open interval from a to b. -/
def sliceChars (cs : List Char) (a b : Nat) : List Char :=
  (cs.drop a).take (b - a)

/-- Modelled from the spec: one merged region rendered as a bracketed
label-list header (labels deduplicated, in sorted order) followed by the
exact substring of the normalized text. -/
def emitRegion (cs : List Char) (r : Region) : String :=
  "[" ++ String.intercalate ", " (sortStrings (dedupStr r.labels)) ++ "]\n" ++
    String.mk (sliceChars cs r.start r.stop)

/-- Modelled from the spec: extract_targeted_content, Strategy C of the
content reducer (spec section 4.2).  Absent from the source tree although
imported by extractor.py line 9; modelled from the specification:
normalize whitespace, scan the seven token classes, expand each match by
the context window clamped to bounds, sort and merge overlapping or
touching regions accumulating label unions, and emit the merged regions
joined by blank lines; zero matches give the empty string. -/
def extract_targeted_content (text : String) (context_window : Nat) : String :=
  let cs := collapseWs text.data
  let ms := scanMatches cs
  let regions := mergeRegions (sortRegions (ms.map (expandSpan context_window cs.length)))
  String.intercalate "\n\n" (regions.map (emitRegion cs))

/-- The context-window expansion of a match of Strategy C as it occurs
inside extract_targeted_content on input text t with window w. -/
def expandedAt (t : String) (w : Nat) (m : Span) : Region :=
  expandSpan w (collapseWs t.data).length m

/-- The reduction selection of LLMExtractor.extract_data (extractor.py
lines 56-61): Strategy C with context_window 200 first, falling back to
extract_main_content exactly when the targeted result is falsy or its
stripped length is below 100. -/
def reduceContent (caps : Caps) (html_content text_content : String) : String :=
  let cleaned := extract_targeted_content text_content 200
  if cleaned = "" ∨ (pyStrip cleaned).length < 100 then
    extract_main_content caps html_content text_content
  else cleaned

/-- The Python error that the reduction stage of extract_data can raise. -/
inductive StageError where
  | zeroDivision
deriving DecidableEq, Repr

/-- A line of 80 equals signs, as written by extractor.py line 73. -/
def eqLine : String := String.mk (List.replicate 80 '=')

/-- A line of 80 dashes, as written by extractor.py line 84. -/
def dashLine : String := String.mk (List.replicate 80 '-')

/-- The text written to output2.txt (extractor.py lines 72-86).  Numeric
rendering is plain decimal: the thousands separators and the one-decimal
float percentage of the Python format specifiers are simplified, the
integer percentage keeping the guarded division of line 80; the layout
otherwise follows the code. -/
def reportText (url : String) (originalHtmlLen originalTextLen : Nat) (cleaned : String) : String :=
  let finalLength := cleaned.length
  let pct := if 0 < originalTextLen then (originalTextLen - finalLength) * 100 / originalTextLen else 0
  eqLine ++ "\n" ++ "URL: " ++ url ++ "\n" ++ eqLine ++ "\n\n" ++
    "Final Content Length: " ++ toString finalLength ++ " characters\n" ++
    "Original HTML Length: " ++ toString originalHtmlLen ++ " characters\n" ++
    "Original Text Length: " ++ toString originalTextLen ++ " characters\n" ++
    "Extraction Method: Targeted (airport codes, numbers, keywords + context)\n" ++
    "Reduction: " ++ toString originalTextLen ++ " -> " ++ toString finalLength ++
    " chars (" ++ toString pct ++ "% reduction)\n" ++
    eqLine ++ "\n\n" ++ "EXACT CONTENT SENT TO LLM:\n" ++ dashLine ++ "\n" ++
    cleaned ++ "\n"

/-- The reduction and bookkeeping stage of LLMExtractor.extract_data up to
the LLM call (extractor.py lines 46-89): strategy selection with fallback,
the reduction-telemetry log line whose percentage divides by
len(text_content) with no zero guard (line 67, a ZeroDivisionError when
the text is empty), and the write of the reduced content to output2.txt
(lines 70-89, its own failures swallowed by the except at line 88).
Returns the reduced content together with the file writes performed. -/
def reductionStage (caps : Caps) (url html_content text_content : String) :
    Except StageError (String × List (String × String)) :=
  let cleaned := reduceContent caps html_content text_content
  if text_content.length = 0 then .error .zeroDivision
  else
    .ok (cleaned,
      [("output2.txt", reportText url html_content.length text_content.length cleaned)])

/-- The names of the files a reduction-stage run wrote. -/
def writeTargets : Except StageError (String × List (String × String)) → List String
  | .ok (_, ws) => ws.map Prod.fst
  | .error _ => []

/-- A parsed HTML document node: text, or an element with a tag and
children.  Attributes play no role in clean_html_for_llm and are not
modelled. -/
inductive HtmlNode where
  | text (s : String)
  | elem (tag : String) (children : List HtmlNode)
deriving Repr

/-- The element tags removed by clean_html_for_llm when a parser is
available (preparser.py lines 107 and 113). -/
def removedTags : List String := ["script", "style", "img", "svg", "image", "noscript"]

/-- Removal of the non-content elements by the parser backends of
clean_html_for_llm (tag.decompose at preparser.py lines 107-108 and
113-114): an element with a removed tag disappears with its whole subtree;
every other node is kept with its children cleaned. -/
def cleanNodes : List HtmlNode → List HtmlNode
  | [] => []
  | .text s :: rest => .text s :: cleanNodes rest
  | .elem t cs :: rest =>
    if t ∈ removedTags then cleanNodes rest
    else .elem t (cleanNodes cs) :: cleanNodes rest

/-- Number of elements with the given tag in a node list, at any depth. -/
def countTagNodes (tag : String) : List HtmlNode → Nat
  | [] => 0
  | .text _ :: rest => countTagNodes tag rest
  | .elem t cs :: rest =>
    (if t = tag then 1 else 0) + countTagNodes tag cs + countTagNodes tag rest

/-- Number of elements with the given tag that do not sit inside any
element with a removed tag: the occurrences that decompose
(preparser.py lines 107-108 and 113-114) leaves in the document, since
removing an element takes its whole subtree with it. -/
def countTagOutside (tag : String) : List HtmlNode → Nat
  | [] => 0
  | .text _ :: rest => countTagOutside tag rest
  | .elem t cs :: rest =>
    if t ∈ removedTags then countTagOutside tag rest
    else (if t = tag then 1 else 0) + countTagOutside tag cs + countTagOutside tag rest

/-- Whether a node list contains an element with a removed tag, at any
depth. -/
def hasRemovedNodes : List HtmlNode → Bool
  | [] => false
  | .text _ :: rest => hasRemovedNodes rest
  | .elem t cs :: rest => decide (t ∈ removedTags) || hasRemovedNodes cs || hasRemovedNodes rest

mutual

/-- Serialization of one node back to markup, tags intact. -/
def renderNode : HtmlNode → String
  | .text s => s
  | .elem t cs => "<" ++ t ++ ">" ++ renderNodesStr cs ++ "</" ++ t ++ ">"

/-- Serialization of a node list back to markup. -/
def renderNodesStr : List HtmlNode → String
  | [] => ""
  | n :: rest => renderNode n ++ renderNodesStr rest

end

/-- Consumes the pattern part matching one or more non-gt characters
followed by gt, returning the suffix after the closing gt; none when no
gt follows. -/
def skipToGt : List Char → Option (List Char)
  | [] => none
  | '>' :: rest => some rest
  | _ :: rest => skipToGt rest

/-- The non-greedy tail of the paired patterns: drops through the first
case-insensitive occurrence of pat, returning the suffix after it. -/
def dropThroughCI (pat : List Char) : List Char → Option (List Char)
  | [] => none
  | c :: rest =>
    if startsWithCI pat (c :: rest) then some ((c :: rest).drop pat.length)
    else dropThroughCI pat rest

/-- One re.sub pass removing every complete open-to-close block of a
paired tag, case-insensitively, as preparser.py lines 119-121 and 125 do
for script, style and svg: at each position, an occurrence of the opening
literal followed by non-gt characters, a gt, and eventually the closing
literal is deleted and scanning resumes after it; an incomplete occurrence
is kept and scanning advances one character. -/
def removePairedTag (openLit closeLit : List Char) : Nat → List Char → List Char
  | 0, cs => cs
  | _ + 1, [] => []
  | fuel + 1, c :: rest =>
    if startsWithCI openLit (c :: rest) then
      match skipToGt ((c :: rest).drop openLit.length) with
      | some afterGt =>
        match dropThroughCI closeLit afterGt with
        | some afterClose => removePairedTag openLit closeLit fuel afterClose
        | none => c :: removePairedTag openLit closeLit fuel rest
      | none => c :: removePairedTag openLit closeLit fuel rest
    else c :: removePairedTag openLit closeLit fuel rest

/-- One re.sub pass removing every self-contained tag occurrence, as
preparser.py line 123 does for img: the opening literal, non-gt
characters and a gt are deleted. -/
def removeVoidTag (openLit : List Char) : Nat → List Char → List Char
  | 0, cs => cs
  | _ + 1, [] => []
  | fuel + 1, c :: rest =>
    if startsWithCI openLit (c :: rest) then
      match skipToGt ((c :: rest).drop openLit.length) with
      | some afterGt => removeVoidTag openLit fuel afterGt
      | none => c :: removeVoidTag openLit fuel rest
    else c :: removeVoidTag openLit fuel rest

/-- The no-parser fallback of clean_html_for_llm (preparser.py lines
117-126): four regex substitutions removing script blocks, style blocks,
img tags and svg blocks, in that order.  No pattern targets noscript. -/
def cleanFallback (html : String) : String :=
  let cs0 := html.data
  let cs1 := removePairedTag "<script".data "</script>".data cs0.length cs0
  let cs2 := removePairedTag "<style".data "</style>".data cs1.length cs1
  let cs3 := removeVoidTag "<img".data cs2.length cs2
  let cs4 := removePairedTag "<svg".data "</svg>".data cs3.length cs3
  String.mk cs4

/-- The parser capability seen by clean_html_for_llm: when available, the
library parses markup into a node tree (preparser.py lines 104-115); the
parsing itself is external library behaviour and is abstract here. -/
structure HtmlCaps where
  parse : Option (String → List HtmlNode)

/-- clean_html_for_llm (preparser.py lines 93-126): with a parser
available, decompose the removed elements and serialize the remaining
tree; otherwise apply the regex fallback. -/
def clean_html_for_llm (caps : HtmlCaps) (html_content : String) : String :=
  match caps.parse with
  | some p => renderNodesStr (cleanNodes (p html_content))
  | none => cleanFallback html_content

/-- Whether pat occurs as a contiguous subsequence of cs. -/
def containsSeq (pat : List Char) : List Char → Bool
  | [] => decide (pat = [])
  | c :: rest => decide ((c :: rest).take pat.length = pat) || containsSeq pat rest

/-- A fake backend whose first attempt times out on navigation, whose
second attempt fails navigation, and which would succeed from the third
attempt on. -/
def bFail : Nat → AttemptSpec := fun n =>
  if n = 1 then .navTimeout
  else if n = 2 then .navError "connection refused"
  else .content (String.mk (List.replicate 120 'a')) "text"

/-- A 120-character HTML string, above the validation threshold. -/
def bigHtml : String := String.mk (List.replicate 120 'a')

/-- A fake backend that always extracts long HTML but empty text. -/
def bOkShortText : Nat → AttemptSpec := fun _ => .content bigHtml ""

/-- A markup input whose only removable-looking element is a noscript. -/
def noscriptExample : String := "<div><noscript>flights</noscript></div>"

/-- Helper: a successful attempt outcome carries HTML of length at least
100, since validation rejects anything shorter. -/
theorem attemptOutcome_success_length {s : AttemptSpec} {h t : String}
    (hs : attemptOutcome s = .success h t) : 100 ≤ h.length := by
  cases s
  case content html text =>
    simp only [attemptOutcome] at hs
    split at hs
    · exact absurd hs (by simp)
    · next hc =>
      push_neg at hc
      obtain ⟨hh, -⟩ := AttemptOutcome.success.inj hs
      subst hh
      exact hc.2
  all_goals simp [attemptOutcome] at hs

/-- Helper: the retry loop returns ok only when some listed attempt's
outcome is success with exactly that payload. -/
theorem loadLoop_ok {b : Nat → AttemptSpec} :
    ∀ (l : List Nat) (last : Option PyError) (h t : String),
      loadLoop b l last = .ok (h, t) → ∃ a ∈ l, attemptOutcome (b a) = .success h t := by
  intro l
  induction l with
  | nil =>
    intro last h t hok
    cases last <;> simp [loadLoop] at hok
  | cons a rest ih =>
    intro last h t hok
    simp only [loadLoop] at hok
    cases o : attemptOutcome (b a) with
    | success h' t' =>
      simp only [o] at hok
      simp at hok
      obtain ⟨rfl, rfl⟩ := hok
      exact ⟨a, by simp, o⟩
    | classified e =>
      simp only [o] at hok
      obtain ⟨x, hx, hs⟩ := ih (some e) h t hok
      exact ⟨x, by simp [hx], hs⟩
    | unexpectedExc m =>
      simp only [o] at hok
      split at hok
      · simp at hok
      · obtain ⟨x, hx, hs⟩ := ih _ h t hok
        exact ⟨x, by simp [hx], hs⟩
    | cancelled =>
      simp only [o] at hok
      simp at hok

/-- C1: get_page_content attempts the load sequence at most twice: its
result depends only on the backend's first two attempts; when both
attempts fail with classified (retryable) errors the error raised is
exactly the second (last observed) one, so a backend that would succeed
on a third call does not succeed; and a classified first failure is
retried, a successful second attempt yielding a normal return. -/
theorem get_page_content_retry_budget :
    (∀ b c : Nat → AttemptSpec, b 1 = c 1 → b 2 = c 2 →
      get_page_content b = get_page_content c) ∧
    (∀ (b : Nat → AttemptSpec) (e1 e2 : PyError),
      attemptOutcome (b 1) = .classified e1 → attemptOutcome (b 2) = .classified e2 →
      get_page_content b = .error (.err e2)) ∧
    (∀ (b : Nat → AttemptSpec) (e1 : PyError) (h t : String),
      attemptOutcome (b 1) = .classified e1 → attemptOutcome (b 2) = .success h t →
      get_page_content b = .ok (h, t)) := by
  refine ⟨?_, ?_, ?_⟩
  · intro b c h1 h2
    show loadLoop b [1, 2] none = loadLoop c [1, 2] none
    simp only [loadLoop, h1, h2]
  · intro b e1 e2 h1 h2
    show loadLoop b [1, 2] none = _
    simp [loadLoop, h1, h2]
  · intro b e1 h t h1 h2
    show loadLoop b [1, 2] none = _
    simp [loadLoop, h1, h2]

/-- C1 witness: a backend that times out, then fails navigation, then
would succeed, makes get_page_content raise the second error. -/
theorem get_page_content_retry_budget_witness :
    get_page_content bFail = .error (.err (.valueError "connection refused")) :=
  get_page_content_retry_budget.2.1 bFail
    (.timeoutError "Page load timed out") (.valueError "connection refused") rfl rfl

/-- C2: within one attempt of get_page_content, the page context is closed
exactly once whenever it was opened, and never otherwise, on every exit
path: successful return, classified error, unexpected exception, and
cancellation; it is opened at most once, so no attempt leaves a page open
or closes it twice. -/
theorem page_closed_once_per_attempt (s : AttemptSpec) :
    (attemptTrace s).count .closed = (if opensPage s then 1 else 0) ∧
    (attemptTrace s).count .opened = (if opensPage s then 1 else 0) := by
  cases s
  case content html text =>
    simp only [attemptTrace, attemptBody, opensPage]
    split <;> exact ⟨rfl, rfl⟩
  all_goals exact ⟨rfl, rfl⟩

/-- C8: get_page_content returns normally only with HTML of length at
least 100; a first attempt that extracts long HTML returns it whatever the
text (short text never by itself fails the attempt); and extracted HTML
shorter than 100 characters is classified as the retryable empty-page
ValueError. -/
theorem load_validation_thresholds :
    (∀ (b : Nat → AttemptSpec) (h t : String),
      get_page_content b = .ok (h, t) → 100 ≤ h.length) ∧
    (∀ (b : Nat → AttemptSpec) (h t : String),
      b 1 = .content h t → 100 ≤ h.length → get_page_content b = .ok (h, t)) ∧
    (∀ h t : String, h.length < 100 →
      attemptOutcome (.content h t) =
        .classified (.valueError "Page appears to be empty or incomplete")) := by
  refine ⟨?_, ?_, ?_⟩
  · intro b h t hok
    have hok2 : loadLoop b [1, 2] none = .ok (h, t) := hok
    obtain ⟨a, -, hs⟩ := loadLoop_ok [1, 2] none h t hok2
    exact attemptOutcome_success_length hs
  · intro b h t hb1 hlen
    have hc : ¬(h = "" ∨ h.length < 100) := by
      rintro (rfl | hlt)
      · simp at hlen
      · omega
    have o1 : attemptOutcome (b 1) = .success h t := by
      rw [hb1]; simp [attemptOutcome, hc]
    show loadLoop b [1, 2] none = _
    simp [loadLoop, o1]
  · intro h t hlt
    simp [attemptOutcome, hlt]

/-- C8 witness: a backend extracting 120 characters of HTML and empty text
returns normally with that HTML. -/
theorem load_validation_thresholds_witness :
    get_page_content bOkShortText = .ok (bigHtml, "") :=
  load_validation_thresholds.2.1 bOkShortText bigHtml "" rfl (by decide)

/-- C3: whenever the Strategy C scan finds zero matches in the normalized
text, extract_targeted_content returns exactly the empty string. -/
theorem targeted_zero_matches_empty (t : String) (w : Nat)
    (h : scanMatches (collapseWs t.data) = []) :
    extract_targeted_content t w = "" := by
  have hunf : extract_targeted_content t w =
      String.intercalate "\n\n" ((mergeRegions (sortRegions
        ((scanMatches (collapseWs t.data)).map
          (expandSpan w (collapseWs t.data).length)))).map
        (emitRegion (collapseWs t.data))) := rfl
  rw [hunf, h]
  rfl

/-- C3 witness: the input with no targeted tokens from the specification test
scenario yields the empty string. -/
theorem targeted_zero_matches_empty_witness :
    extract_targeted_content "Hello world, nothing relevant here." 200 = "" :=
  targeted_zero_matches_empty "Hello world, nothing relevant here." 200 (by decide)

/-- C4: in the reduction stage of extract_data, Strategy C with context
window 200 is applied first and Strategy A is used instead exactly when
the targeted result, after stripping, is shorter than 100 characters
(which subsumes the separate falsy check in the code, since an empty
string strips to length 0). -/
theorem reduce_content_fallback_iff (caps : Caps) (html text : String) :
    reduceContent caps html text =
      if (pyStrip (extract_targeted_content text 200)).length < 100 then
        extract_main_content caps html text
      else extract_targeted_content text 200 := by
  unfold reduceContent
  by_cases hc : extract_targeted_content text 200 = ""
  · rw [hc, if_pos (Or.inl rfl), if_pos (by decide)]
  · simp [hc]

/-- C6 counterexample: with no HTML-parsing capability available,
extract_main_content does not return the original visible text string
unchanged: preparser.py line 57 (and line 90) returns
text_content.strip(), so a text with surrounding whitespace comes back
stripped, differing from the input. -/
theorem extract_main_content_unchanged_counterexample :
    extract_main_content capsNone "<html></html>" "  original text  " = "original text" ∧
    extract_main_content capsNone "<html></html>" "  original text  " ≠ "  original text  " :=
  ⟨by decide, by decide⟩

/-- C6 amended: with no HTML-parsing capability available (trafilatura,
selectolax and BeautifulSoup all unavailable), extract_main_content
returns the original visible text with leading and trailing whitespace
stripped, and otherwise unchanged. -/
theorem extract_main_content_no_backend (caps : Caps) (html text : String)
    (h1 : caps.trafilatura = none) (h2 : caps.selectolax = none)
    (h3 : caps.bs4 = none) :
    extract_main_content caps html text = pyStrip text := by
  unfold extract_main_content
  rw [h1, h2, h3]

/-- C6 witness: the no-capability configuration returns the stripped
text. -/
theorem extract_main_content_no_backend_witness :
    extract_main_content capsNone "<html></html>" "  hi  " = "hi" := by
  have h := extract_main_content_no_backend capsNone "<html></html>" "  hi  " rfl rfl rfl
  rw [h]
  decide

/-- C9: the reduction stage of extract_data raises ZeroDivisionError on
empty text content: the reduction-percentage computation in the log call
at extractor.py line 67 divides by len(text_content) with no zero guard
(unlike its guarded twin at line 80), so the stage does not complete for
the empty-string input; the same stage with a one-character text returns
normally. -/
theorem reduction_stage_zero_division :
    reductionStage capsNone "http://example.com" "" "" = .error .zeroDivision ∧
    (∃ r, reductionStage capsNone "http://example.com" "" "x" = .ok r) := by
  exact ⟨rfl, ⟨_, rfl⟩⟩

/-- C10 counterexample: the reduction stage of extract_data does perform a
file write surviving the request: on a concrete input it writes exactly
the file output2.txt (extractor.py lines 70-89), refuting the claim that
no intermediate results are persisted. -/
theorem reduction_stage_writes_counterexample :
    writeTargets (reductionStage capsNone "http://example.com"
      "<html>x</html>" "JFK and LAX") = ["output2.txt"] := rfl

/-- C10 amended: for every input whose text content is nonempty (so the
stage completes), the reduction stage persists exactly one artifact: a
single write of the report containing the reduced content to output2.txt,
and nothing else. -/
theorem reduction_stage_single_write (caps : Caps) (url html text : String)
    (h : text.length ≠ 0) :
    reductionStage caps url html text =
      .ok (reduceContent caps html text,
        [("output2.txt",
          reportText url html.length text.length (reduceContent caps html text))]) := by
  unfold reductionStage
  rw [if_neg h]

/-- C10 witness: a concrete nonempty input performs exactly the single
output2.txt write of its report. -/
theorem reduction_stage_single_write_witness :
    reductionStage capsNone "http://example.com" "<p>x</p>" "JFK" =
      .ok (reduceContent capsNone "<p>x</p>" "JFK",
        [("output2.txt",
          reportText "http://example.com" "<p>x</p>".length "JFK".length
            (reduceContent capsNone "<p>x</p>" "JFK"))]) :=
  reduction_stage_single_write capsNone "http://example.com" "<p>x</p>" "JFK" (by decide)

/-- C7 counterexample: with no parser backend available,
clean_html_for_llm does not remove noscript elements: on a concrete input
containing only a noscript element the output is the input unchanged and
still contains the noscript tag, refuting the claim that noscript
elements are removed for every HTML input. -/
theorem clean_html_noscript_counterexample :
    clean_html_for_llm ⟨none⟩ noscriptExample = noscriptExample ∧
    containsSeq "<noscript>".data (clean_html_for_llm ⟨none⟩ noscriptExample).data = true := by
  exact ⟨rfl, by decide⟩

/-- C7 amended: when a parser backend is available, clean_html_for_llm
removes every script, style, img, svg, image and noscript element with
its subtree and leaves every other tag of the input intact up to that
subtree removal: no removed-tag element remains, every tag keeps exactly
as many occurrences as it had outside removed elements in the input, and
a document containing no removed element is returned unchanged; when no
parser backend is available, the degraded pattern-matching fallback does
not remove noscript elements, which remain in the output. -/
theorem clean_html_amended :
    (∀ (ns : List HtmlNode) (tag : String), tag ∈ removedTags →
      countTagNodes tag (cleanNodes ns) = 0) ∧
    (∀ (ns : List HtmlNode) (tag : String),
      countTagNodes tag (cleanNodes ns) = countTagOutside tag ns) ∧
    (∀ ns : List HtmlNode, hasRemovedNodes ns = false → cleanNodes ns = ns) ∧
    containsSeq "<noscript>".data (cleanFallback "<p><noscript>x</noscript></p>").data = true := by
  refine ⟨?_, ?_, ?_, by decide⟩
  · intro ns tag htag
    induction ns using cleanNodes.induct with
    | case1 => simp [cleanNodes, countTagNodes]
    | case2 s rest ih => simp [cleanNodes, countTagNodes, ih]
    | case3 t cs rest hmem ih => simpa [cleanNodes, hmem] using ih
    | case4 t cs rest hmem ih1 ih2 =>
      simp [cleanNodes, hmem, countTagNodes, ih1, ih2]
      rintro rfl
      exact hmem htag
  · intro ns tag
    induction ns using cleanNodes.induct with
    | case1 => simp [cleanNodes, countTagNodes, countTagOutside]
    | case2 s rest ih => simp [cleanNodes, countTagNodes, countTagOutside, ih]
    | case3 t cs rest hmem ih =>
      simp [cleanNodes, countTagOutside, hmem, ih]
    | case4 t cs rest hmem ih1 ih2 =>
      simp [cleanNodes, countTagNodes, countTagOutside, hmem, ih1, ih2]
  · intro ns
    induction ns using cleanNodes.induct with
    | case1 => intro h; simp [cleanNodes]
    | case2 s rest ih =>
      intro h
      simp only [hasRemovedNodes] at h
      simp [cleanNodes, ih h]
    | case3 t cs rest hmem ih =>
      intro h
      simp only [hasRemovedNodes, Bool.or_eq_false_iff, decide_eq_false_iff_not] at h
      exact absurd hmem h.1.1
    | case4 t cs rest hmem ih1 ih2 =>
      intro h
      simp only [hasRemovedNodes, Bool.or_eq_false_iff, decide_eq_false_iff_not] at h
      simp [cleanNodes, hmem, ih1 h.1.2, ih2 h.2]

/-- C7 amended witness: a concrete script element is removed; in a dirty
document a p element inside a noscript is dropped with it while the
outside p survives, matching the outside count; and a concrete clean
document is returned intact. -/
theorem clean_html_amended_witness :
    countTagNodes "script" (cleanNodes [.elem "script" [.text "x"]]) = 0 ∧
    countTagNodes "p" (cleanNodes [.elem "noscript" [.elem "p" []], .elem "p" []]) =
      countTagOutside "p" [.elem "noscript" [.elem "p" []], .elem "p" []] ∧
    cleanNodes [.elem "p" [.text "x"]] = [.elem "p" [.text "x"]] :=
  ⟨clean_html_amended.1 [.elem "script" [.text "x"]] "script" (by decide),
   clean_html_amended.2.1 [.elem "noscript" [.elem "p" []], .elem "p" []] "p",
   clean_html_amended.2.2.1 [.elem "p" [.text "x"]]
     (by simp [hasRemovedNodes, removedTags])⟩

/-- Helper: the lexicographic comparison is antisymmetric. -/
theorem strLeChars_antisymm :
    ∀ a b : List Char, strLeChars a b = true → strLeChars b a = true → a = b := by
  intro a
  induction a with
  | nil =>
    intro b h1 h2
    cases b with
    | nil => rfl
    | cons c cs => simp [strLeChars] at h2
  | cons x xs ih =>
    intro b h1 h2
    cases b with
    | nil => simp [strLeChars] at h1
    | cons y ys =>
      by_cases hxy : x = y
      · subst hxy
        simp only [strLeChars, if_pos rfl] at h1 h2
        rw [ih ys h1 h2]
      · have hyx : ¬y = x := fun h => hxy h.symm
        simp only [strLeChars, if_neg hxy, decide_eq_true_eq] at h1
        simp only [strLeChars, if_neg hyx, decide_eq_true_eq] at h2
        exact absurd h2 (lt_asymm h1)

/-- Helper: the lexicographic comparison is total. -/
theorem strLeChars_total :
    ∀ a b : List Char, strLeChars a b = true ∨ strLeChars b a = true := by
  intro a
  induction a with
  | nil => intro b; exact Or.inl rfl
  | cons x xs ih =>
    intro b
    cases b with
    | nil => exact Or.inr rfl
    | cons y ys =>
      by_cases hxy : x = y
      · subst hxy
        rcases ih ys with h | h
        · exact Or.inl (by simpa [strLeChars] using h)
        · exact Or.inr (by simpa [strLeChars] using h)
      · have hyx : ¬y = x := fun h => hxy h.symm
        rcases lt_or_gt_of_ne hxy with h | h
        · exact Or.inl (by simp [strLeChars, hxy, h])
        · exact Or.inr (by simp [strLeChars, hyx, h])

/-- Helper: a sorted deduplicated pair of labels does not depend on the
order the two labels were accumulated in. -/
theorem sortStrings_pair_comm (a b : String) :
    sortStrings (dedupStr [a, b]) = sortStrings (dedupStr [b, a]) := by
  by_cases hab : a = b
  · subst hab; rfl
  · have hba : b ≠ a := fun h => hab h.symm
    have d1 : dedupStr [a, b] = [a, b] := by simp [dedupStr, hab]
    have d2 : dedupStr [b, a] = [b, a] := by simp [dedupStr, hba]
    rw [d1, d2]
    have hdata : a.data ≠ b.data := fun h =>
      hab (by cases a; cases b; exact congrArg String.mk h)
    rcases strLeChars_total a.data b.data with h | h
    · have h1 : strLe a b = true := h
      have h2 : strLe b a = false := by
        cases h2 : strLe b a
        · rfl
        · exact absurd (strLeChars_antisymm b.data a.data h2 h).symm hdata
      simp [sortStrings, insertStr, h1, h2]
    · have h1 : strLe b a = true := h
      have h2 : strLe a b = false := by
        cases h2 : strLe a b
        · rfl
        · exact absurd (strLeChars_antisymm a.data b.data h2 h) hdata
      simp [sortStrings, insertStr, h1, h2]

/-- Helper: sorting then merging exactly two overlapping-or-touching
regions yields the single region spanning from the smaller start to the
larger stop, with the two label lists appended in sorted-position
order. -/
theorem merge_two_regions (e1 e2 : Region)
    (h12 : e1.start ≤ e2.stop) (h21 : e2.start ≤ e1.stop) :
    mergeRegions (sortRegions [e1, e2]) =
      [{ start := min e1.start e2.start, stop := max e1.stop e2.stop,
         labels := if e1.start ≤ e2.start then e1.labels ++ e2.labels
                   else e2.labels ++ e1.labels }] := by
  by_cases hle : e1.start ≤ e2.start
  · have hs : sortRegions [e1, e2] = [e1, e2] := by
      simp [sortRegions, insertRegion, hle]
    rw [hs]
    show mergeRegionsFuel 2 [e1, e2] = _
    simp [mergeRegionsFuel, h21, hle, min_eq_left hle]
  · have hge : e2.start ≤ e1.start := le_of_not_le hle
    have hs : sortRegions [e1, e2] = [e2, e1] := by
      simp [sortRegions, insertRegion, hle]
    rw [hs]
    show mergeRegionsFuel 2 [e2, e1] = _
    simp [mergeRegionsFuel, h12, hle, min_eq_right hge, max_comm]

/-- C5: when the Strategy C scan yields exactly two matches whose
context-window-expanded intervals overlap or touch, the output is exactly
one merged region: a header carrying the deduplicated union of the two
labels in sorted order, followed by the exact substring of the normalized
text from the smaller expanded start to the larger expanded stop. -/
theorem targeted_merge_two_matches (t : String) (w : Nat) (m1 m2 : Span)
    (hscan : scanMatches (collapseWs t.data) = [m1, m2])
    (h12 : (expandedAt t w m1).start ≤ (expandedAt t w m2).stop)
    (h21 : (expandedAt t w m2).start ≤ (expandedAt t w m1).stop) :
    extract_targeted_content t w =
      "[" ++ String.intercalate ", " (sortStrings (dedupStr [m1.label, m2.label])) ++
        "]\n" ++
        String.mk (sliceChars (collapseWs t.data)
          (min (expandedAt t w m1).start (expandedAt t w m2).start)
          (max (expandedAt t w m1).stop (expandedAt t w m2).stop)) := by
  have hunf : extract_targeted_content t w =
      String.intercalate "\n\n" ((mergeRegions (sortRegions
        ((scanMatches (collapseWs t.data)).map
          (expandSpan w (collapseWs t.data).length)))).map
        (emitRegion (collapseWs t.data))) := rfl
  rw [hunf, hscan]
  simp only [List.map_cons, List.map_nil]
  rw [merge_two_regions (expandSpan w (collapseWs t.data).length m1)
    (expandSpan w (collapseWs t.data).length m2) h12 h21]
  simp only [expandedAt, expandSpan] at h12 h21 ⊢
  by_cases hle : m1.start - w ≤ m2.start - w
  · simp [emitRegion, hle, String.intercalate]
    rfl
  · simp only [hle, if_false, emitRegion, List.map_cons, List.map_nil,
      List.singleton_append, List.cons_append, List.nil_append]
    rw [sortStrings_pair_comm m2.label m1.label]
    simp [String.intercalate]
    rfl

/-- C5 witness: two airport-code matches in one short text, expanded by
the default 200-character window, merge into a single region whose header
carries both labels in sorted order over the whole normalized text. -/
theorem targeted_merge_two_matches_witness :
    extract_targeted_content "JFK and LAX" 200 =
      "[AIRPORT:JFK, AIRPORT:LAX]\nJFK and LAX" := by
  have h := targeted_merge_two_matches "JFK and LAX" 200
    ⟨0, 3, "AIRPORT:JFK"⟩ ⟨8, 11, "AIRPORT:LAX"⟩ (by decide) (by decide) (by decide)
  rw [h]
  decide
